import Mathlib

/-!
Shallow embedding of the OneBox-AI retrieval-augmented reply pipeline
(backend services vector.service.ts and imap.service.mock.ts), with
theorems checking the specification claims about it.

JavaScript strings are modelled as lists of characters; JavaScript
numbers used for delays, similarities and confidences are modelled as
rationals; the real-valued embedding arithmetic (Math.sin, Math.sqrt)
is modelled over the reals.
-/

namespace OneBoxAI

/-- JavaScript string, modelled as a list of characters. -/
abbrev Str : Type := List Char

/-- String.prototype.includes: substring containment test. -/
def jsIncludes (hay needle : List Char) : Bool :=
  needle.isPrefixOf hay ||
    match hay with
    | [] => false
    | _ :: t => jsIncludes t needle

/-- String.prototype.toLowerCase (character-wise lowering). -/
def jsToLower (s : List Char) : List Char := s.map Char.toLower

/-- String.prototype.trim: strip whitespace from both ends. -/
def jsTrim (s : List Char) : List Char :=
  ((s.dropWhile Char.isWhitespace).reverse.dropWhile Char.isWhitespace).reverse

/-- One pass of String.prototype.replace with a global regexp for a literal
pattern: non-overlapping left-to-right replacement.  The fuel argument
bounds recursion depth; it is instantiated with the string length plus one,
which is always sufficient since every step consumes at least one
character of the remaining string. -/
def jsReplaceFuel : ℕ → List Char → List Char → List Char → List Char
  | 0, _, _, s => s
  | _ + 1, _, _, [] => []
  | fuel + 1, pat, repl, c :: rest =>
    if pat ≠ [] ∧ pat.isPrefixOf (c :: rest) then
      repl ++ jsReplaceFuel fuel pat repl ((c :: rest).drop pat.length)
    else
      c :: jsReplaceFuel fuel pat repl rest

/-- String.prototype.replace(new RegExp(pat, g), repl) for a literal pattern. -/
def jsReplaceAll (pat repl s : List Char) : List Char :=
  jsReplaceFuel (s.length + 1) pat repl s

/-- Math.max on two numbers. -/
def jsMax (a b : ℚ) : ℚ := if a ≤ b then b else a

/-- Math.min on two numbers. -/
def jsMin (a b : ℚ) : ℚ := if a ≤ b then a else b

/-- Math.round: round half up. -/
def jsRound (q : ℚ) : ℤ := (q + mkRat 1 2).floor

/-! ## Rate-limit delay state (vector.service.ts)

rateLimitDelay starts at 1000 ms.  A successful embedding request decays
it (times 0.9, floored at 1000); a rate-limited request (HTTP 429)
doubles it, capped at 30000 ms. -/

/-- Initial value of rateLimitDelay (1000 ms). -/
def initialRateLimitDelay : ℚ := 1000

/-- rateLimitDelay update on a successful request:
Math.max(1000, rateLimitDelay * 0.9). -/
def delayAfterSuccess (d : ℚ) : ℚ := jsMax 1000 (d * mkRat 9 10)

/-- rateLimitDelay update on a 429 response:
Math.min(30000, rateLimitDelay * 2). -/
def delayAfter429 (d : ℚ) : ℚ := jsMin 30000 (d * 2)

/-! ## Fallback embedding (vector.service.ts, generateFallbackEmbedding)

The input text is modelled as its list of UTF-16 char codes
(text.charCodeAt(i) for each position i). -/

/-- Embedding dimension used throughout (OpenAI ada-002 size). -/
def embeddingDim : ℕ := 1536

/-- embedding(index) += delta, leaving the rest of the vector unchanged. -/
noncomputable def bumpAt (v : List ℝ) (index : ℕ) (delta : ℝ) : List ℝ :=
  v.set index (v.getD index 0 + delta)

/-- The accumulation loop of generateFallbackEmbedding: starting from the
zero vector of length 1536, for each position i with char code c, add
Math.sin(c * i) * 0.01 at index (c + i) % 1536. -/
noncomputable def rawEmbedding (text : List ℕ) : List ℝ :=
  text.enum.foldl
    (fun v p => bumpAt v ((p.2 + p.1) % embeddingDim) (Real.sin (p.2 * p.1 : ℕ) * 0.01))
    (List.replicate embeddingDim 0)

/-- Sum of squared entries (the reduce((sum, val) => sum + val * val, 0)). -/
def sumSq (v : List ℝ) : ℝ := (v.map fun x => x * x).sum

/-- Euclidean magnitude of a vector, Math.sqrt of the sum of squares. -/
noncomputable def magnitude (v : List ℝ) : ℝ := Real.sqrt (sumSq v)

/-- generateFallbackEmbedding: accumulate the trigonometric hash, then
L2-normalize unless the magnitude is zero. -/
noncomputable def generateFallbackEmbedding (text : List ℕ) : List ℝ :=
  let e := rawEmbedding text
  let m := magnitude e
  if 0 < m then e.map fun val => val / m else e

/-! ### Helper lemmas about sumSq and the accumulation -/

lemma sumSq_nil : sumSq [] = 0 := rfl

lemma sumSq_cons (x : ℝ) (l : List ℝ) : sumSq (x :: l) = x * x + sumSq l := by
  simp [sumSq]

lemma sumSq_nonneg (l : List ℝ) : 0 ≤ sumSq l := by
  induction l with
  | nil => simp [sumSq_nil]
  | cons x t ih => rw [sumSq_cons]; nlinarith [mul_self_nonneg x]

lemma sq_getD_le_sumSq (l : List ℝ) (i : ℕ) : l.getD i 0 * l.getD i 0 ≤ sumSq l := by
  induction l generalizing i with
  | nil => simp [sumSq_nil]
  | cons x t ih =>
    cases i with
    | zero =>
      have h0 : (x :: t).getD 0 0 = x := rfl
      rw [sumSq_cons, h0]
      nlinarith [sumSq_nonneg t]
    | succ j =>
      have h0 : (x :: t).getD (j + 1) 0 = t.getD j 0 := rfl
      rw [sumSq_cons, h0]
      nlinarith [ih j, mul_self_nonneg x]

lemma sumSq_map_div (l : List ℝ) (m : ℝ) :
    sumSq (l.map fun v => v / m) = sumSq l / (m * m) := by
  induction l with
  | nil => simp [sumSq_nil, sumSq]
  | cons x t ih =>
    rw [List.map_cons, sumSq_cons, sumSq_cons, ih]
    by_cases hm : m = 0
    · simp [hm]
    · field_simp

lemma getD_set_self (l : List ℝ) (i : ℕ) (x : ℝ) (h : i < l.length) :
    (l.set i x).getD i 0 = x := by
  induction l generalizing i with
  | nil => simp at h
  | cons a t ih =>
    cases i with
    | zero => rfl
    | succ j => exact ih j (by simpa using h)

lemma getD_set_ne (l : List ℝ) (i j : ℕ) (x : ℝ) (h : i ≠ j) :
    (l.set i x).getD j 0 = l.getD j 0 := by
  induction l generalizing i j with
  | nil => rfl
  | cons a t ih =>
    cases i with
    | zero =>
      cases j with
      | zero => exact absurd rfl h
      | succ k => rfl
    | succ i2 =>
      cases j with
      | zero => rfl
      | succ k => exact ih i2 k (fun e => h (by rw [e]))

lemma getD_replicate (n i : ℕ) : (List.replicate n (0 : ℝ)).getD i 0 = 0 := by
  induction n generalizing i with
  | zero => rfl
  | succ m ih =>
    cases i with
    | zero => rfl
    | succ j => exact ih j

lemma set_replicate_zero (n i : ℕ) :
    (List.replicate n (0 : ℝ)).set i 0 = List.replicate n 0 := by
  induction n generalizing i with
  | zero => rfl
  | succ m ih =>
    cases i with
    | zero => rfl
    | succ j => exact congrArg (List.cons 0) (ih j)

lemma sumSq_replicate_zero (n : ℕ) : sumSq (List.replicate n (0 : ℝ)) = 0 := by
  induction n with
  | zero => rfl
  | succ m ih => simpa [List.replicate_succ, sumSq_cons] using ih

/-- The accumulation for a single-character text adds sin(c * 0) * 0.01 = 0,
leaving the zero vector. -/
lemma rawEmbedding_single (c : ℕ) :
    rawEmbedding [c] = List.replicate embeddingDim 0 := by
  have hz : Real.sin ((c * 0 : ℕ) : ℝ) * 0.01 = 0 := by
    simp [Nat.mul_zero]
  simp only [rawEmbedding, List.enum, List.enumFrom, List.foldl, bumpAt, hz, add_zero]
  rw [getD_replicate]
  exact set_replicate_zero _ _

/-- generateFallbackEmbedding on a single-character text returns the zero
vector (the normalization branch is skipped since the magnitude is 0). -/
lemma fallback_single_char (c : ℕ) :
    generateFallbackEmbedding [c] = List.replicate embeddingDim 0 := by
  unfold generateFallbackEmbedding
  rw [rawEmbedding_single]
  simp [magnitude, sumSq_replicate_zero]

/-! ## generateEmbeddings retry loop (vector.service.ts)

Each call to the OpenAI embeddings endpoint is modelled by an oracle
giving the outcome of attempt number n: a successful response carrying a
vector, an HTTP 429 rate-limit error, an insufficient_quota error, or
any other error (auth failure, network error, ...). -/

/-- Outcome of one request to the primary embedding provider. -/
inductive EmbOutcome where
  | ok (v : List ℝ)
  | rateLimited
  | quotaExceeded
  | otherError

/-- The while loop of generateEmbeddings.  The first argument is the
remaining retry budget maxRetries - retries (initially 3); the second is
the index of the next provider attempt.  A 429 outcome doubles the delay
(capped) and consumes one unit of budget; when the budget is exhausted
the loop returns the fallback embedding (this also covers the
unreachable return after the while loop).  Returns the outcome (an
embedding, or a raised error) together with the updated rateLimitDelay. -/
noncomputable def generateEmbeddingsLoop (text : List ℕ) (provider : ℕ → EmbOutcome) :
    ℕ → ℕ → ℚ → Except Unit (List ℝ) × ℚ
  | 0, _, d => (Except.ok (generateFallbackEmbedding text), d)
  | gas + 1, attempt, d =>
    match provider attempt with
    | .ok v => (Except.ok v, delayAfterSuccess d)
    | .rateLimited => generateEmbeddingsLoop text provider gas (attempt + 1) (delayAfter429 d)
    | .quotaExceeded => (Except.ok (generateFallbackEmbedding text), d)
    | .otherError => (Except.error (), d)

/-- generateEmbeddings with maxRetries = 3, starting at retries = 0. -/
noncomputable def generateEmbeddings (text : List ℕ) (provider : ℕ → EmbOutcome) (d : ℚ) :
    Except Unit (List ℝ) × ℚ :=
  generateEmbeddingsLoop text provider 3 0 d

lemma generateEmbeddingsLoop_isOk (text : List ℕ) (provider : ℕ → EmbOutcome)
    (h : ∀ n, provider n ≠ EmbOutcome.otherError) :
    ∀ gas attempt d, ((generateEmbeddingsLoop text provider gas attempt d).1).isOk = true := by
  intro gas
  induction gas with
  | zero => intro attempt d; rfl
  | succ g ih =>
    intro attempt d
    unfold generateEmbeddingsLoop
    cases hp : provider attempt with
    | ok v => rfl
    | rateLimited => exact ih (attempt + 1) (delayAfter429 d)
    | quotaExceeded => rfl
    | otherError => exact absurd hp (h attempt)

/-! ## Claims about the embedding layer -/

/-- Claim C10: for every input text consisting of exactly one character,
generateFallbackEmbedding returns the all-zero vector of dimension 1536
(the sole accumulated term is sin(charCode * 0) * 0.01 = 0, so the
magnitude is 0 and normalization is skipped), hence the returned vector
has Euclidean norm 0, not 1, even though the input is non-empty. -/
theorem C10_single_char_zero_vector (c : ℕ) :
    generateFallbackEmbedding [c] = List.replicate 1536 0 ∧
    magnitude (generateFallbackEmbedding [c]) = 0 := by
  have h := fallback_single_char c
  refine ⟨h, ?_⟩
  rw [h]
  simp [magnitude, sumSq_replicate_zero]

/-- Claim C4 counterexample: the single-character text with char code 97
(the string a) is non-empty, yet the fallback embedding computed for it is
not L2-normalized: its Euclidean norm is 0, not 1. -/
theorem C4_counterexample :
    ([97] : List ℕ) ≠ [] ∧ Real.sqrt (sumSq (generateFallbackEmbedding [97])) ≠ 1 := by
  refine ⟨by simp, ?_⟩
  rw [fallback_single_char 97, sumSq_replicate_zero]
  simp

/-- Claim C4 (amended): two calls to generateFallbackEmbedding with the same
input text produce identical vectors, and the returned vector is
L2-normalized (Euclidean norm 1) whenever the accumulated
pre-normalization vector is nonzero (positive sum of squares); when the
accumulation is the zero vector — as happens for every single-character
text — the zero vector is returned unnormalized. -/
theorem C4_fallback_deterministic_normalized (s t : List ℕ) (hst : s = t)
    (hpos : 0 < sumSq (rawEmbedding t)) :
    generateFallbackEmbedding s = generateFallbackEmbedding t ∧
    Real.sqrt (sumSq (generateFallbackEmbedding t)) = 1 := by
  subst hst
  refine ⟨rfl, ?_⟩
  have hmpos : 0 < magnitude (rawEmbedding s) := Real.sqrt_pos.2 hpos
  have hbranch : generateFallbackEmbedding s
      = (rawEmbedding s).map fun val => val / magnitude (rawEmbedding s) := by
    unfold generateFallbackEmbedding
    simp [hmpos]
  rw [hbranch, sumSq_map_div]
  have hmm : magnitude (rawEmbedding s) * magnitude (rawEmbedding s) = sumSq (rawEmbedding s) :=
    Real.mul_self_sqrt (le_of_lt hpos)
  rw [hmm, div_self (ne_of_gt hpos), Real.sqrt_one]

/-- The two-character text with char codes 0 and 1 accumulates
sin(1 * 1) * 0.01 at index (1 + 1) % 1536 = 2 and nothing elsewhere. -/
lemma rawEmbedding_pair :
    rawEmbedding [0, 1] = (List.replicate embeddingDim (0 : ℝ)).set 2 (Real.sin 1 * 0.01) := by
  simp only [rawEmbedding, List.enum, List.enumFrom, List.foldl, bumpAt]
  norm_num
  have h2 : (2 : ℕ) % embeddingDim = 2 := by decide
  rw [h2]

/-- The accumulated vector for the text [0, 1] has positive sum of squares,
since sin 1 is positive. -/
lemma sumSq_rawEmbedding_pair_pos : 0 < sumSq (rawEmbedding [0, 1]) := by
  rw [rawEmbedding_pair]
  have hlen : (2 : ℕ) < (List.replicate embeddingDim (0 : ℝ)).length := by
    rw [List.length_replicate]; decide
  have h2 : ((List.replicate embeddingDim (0 : ℝ)).set 2 (Real.sin 1 * 0.01)).getD 2 0
      = Real.sin 1 * 0.01 := getD_set_self _ 2 _ hlen
  have hle := sq_getD_le_sumSq ((List.replicate embeddingDim (0 : ℝ)).set 2 (Real.sin 1 * 0.01)) 2
  rw [h2] at hle
  have hsin : 0 < Real.sin 1 :=
    Real.sin_pos_of_pos_of_lt_pi one_pos (by linarith [Real.pi_gt_three])
  have hpos : 0 < Real.sin 1 * 0.01 * (Real.sin 1 * 0.01) := by positivity
  exact lt_of_lt_of_le hpos hle

/-- Claim C4 witness: the amended theorem applied to the concrete text
[0, 1], whose accumulated vector is nonzero. -/
theorem C4_witness :
    generateFallbackEmbedding [0, 1] = generateFallbackEmbedding [0, 1] ∧
    Real.sqrt (sumSq (generateFallbackEmbedding [0, 1])) = 1 :=
  C4_fallback_deterministic_normalized [0, 1] [0, 1] rfl sumSq_rawEmbedding_pair_pos

/-- Claim C5: starting from the initial delay of 1000 ms, rateLimitDelay
always stays within [1000, 30000]: a 429 doubles it (capped at 30000) and
strictly increases it while it is below the ceiling, and a success
multiplies it by 0.9 (floored at 1000). -/
theorem C5_rate_limit_delay_invariant :
    (1000 ≤ initialRateLimitDelay ∧ initialRateLimitDelay ≤ 30000) ∧
    ∀ d : ℚ, 1000 ≤ d → d ≤ 30000 →
      1000 ≤ delayAfterSuccess d ∧ delayAfterSuccess d ≤ 30000 ∧
      1000 ≤ delayAfter429 d ∧ delayAfter429 d ≤ 30000 ∧
      (d < 30000 → d < delayAfter429 d) := by
  have hm : (mkRat 9 10 : ℚ) = 9 / 10 := by
    rw [Rat.mkRat_eq_div]; norm_num
  constructor
  · norm_num [initialRateLimitDelay]
  · intro d h1 h2
    unfold delayAfterSuccess delayAfter429 jsMax jsMin
    rw [hm]
    split_ifs with ha hb <;>
      refine ⟨by linarith, by linarith, by linarith, by linarith, fun h3 => by linarith⟩

/-- Claim C5 witness: the invariant theorem applied at the initial delay
1000, showing in particular that a 429 strictly increases it. -/
theorem C5_witness : (1000 : ℚ) < delayAfter429 1000 :=
  ((C5_rate_limit_delay_invariant.2 1000 (by norm_num) (by norm_num)).2.2.2.2) (by norm_num)

/-! ## Claim C3: generateEmbeddings error behaviour -/

/-- Claim C3 counterexample: a provider outcome that is neither a 429 nor
an insufficient_quota error (e.g. an auth failure or a network error) is
rethrown by generateEmbeddings rather than degraded to the fallback
embedding. -/
theorem C3_counterexample :
    (generateEmbeddings [] (fun _ => EmbOutcome.otherError) 1000).1 = Except.error () := rfl

/-- Claim C3 (amended): for every sequence of provider outcomes containing
only successes, rate-limit (429) responses and quota-exhaustion errors,
generateEmbeddings returns a vector rather than raising; a quota error is
not retried and degrades immediately to the local fallback embedding.
Any other provider error (auth failure, network error) is rethrown. -/
theorem C3_embeddings_degrade_amended (text : List ℕ) (provider : ℕ → EmbOutcome)
    (d : ℚ) (h : ∀ n, provider n ≠ EmbOutcome.otherError) :
    ((generateEmbeddings text provider d).1).isOk = true ∧
    (provider 0 = EmbOutcome.quotaExceeded →
      generateEmbeddings text provider d = (Except.ok (generateFallbackEmbedding text), d)) := by
  refine ⟨generateEmbeddingsLoop_isOk text provider h 3 0 d, fun hq => ?_⟩
  simp [generateEmbeddings, generateEmbeddingsLoop, hq]

/-- Claim C3 witness: the amended theorem applied to a provider that
always reports quota exhaustion. -/
theorem C3_witness :
    ((generateEmbeddings [] (fun _ => EmbOutcome.quotaExceeded) 1000).1).isOk = true ∧
    generateEmbeddings [] (fun _ => EmbOutcome.quotaExceeded) 1000
      = (Except.ok (generateFallbackEmbedding []), 1000) := by
  have h := C3_embeddings_degrade_amended [] (fun _ => EmbOutcome.quotaExceeded) 1000
    (fun n => by simp)
  exact ⟨h.1, h.2 rfl⟩

/-! ## RAG reply pipeline (imap.service.mock.ts)

The external effects of the pipeline — the intent-classification LLM
call, the two vector-store searches, and the reply-generation LLM call —
are modelled by an environment record giving each call outcome.  A
search or completion that rejects is an Except.error and is caught by
the try/catch of generateReplySuggestions; the intent call catches its
own errors internally.  Date.now() is the now field; the MEETING_LINK
environment variable is the meetingLink field (none when unset). -/

/-- EmailContext of the mock IMAP service (the from and to fields are
renamed fromAddr and toAddr since those words are reserved in Lean). -/
structure EmailContext where
  subject : Str
  body : Str
  fromAddr : Str
  toAddr : List Str
  date : Str
deriving DecidableEq

/-- The three tones a SuggestedReply may carry. -/
inductive Tone where
  | professional
  | friendly
  | formal
deriving DecidableEq

/-- One result of vectorService.searchKnowledge: a document with its
similarity (1 minus the cosine distance reported by the store).  The
untyped metadata payload is not modelled. -/
structure KnowledgeResult where
  content : Str
  similarity : ℚ
deriving DecidableEq

/-- One result of vectorService.searchReplyTemplates (the variables field
is renamed vars since that word is reserved in Lean). -/
structure TemplateResult where
  scenario : Str
  template : Str
  vars : List Str
  category : Str
  similarity : ℚ
deriving DecidableEq

/-- The context block of a SuggestedReply. -/
structure ReplyContext where
  relevantKnowledge : List KnowledgeResult
  matchedTemplate : Option TemplateResult
  reasoning : Str
deriving DecidableEq

/-- The metadata block of a SuggestedReply. -/
structure ReplyMetadata where
  category : Str
  tone : Tone
  action_required : Bool
  estimated_response_time : Str
deriving DecidableEq

/-- A suggested reply produced by the RAG service. -/
structure SuggestedReply where
  id : Str
  content : Str
  confidence : ℚ
  context : ReplyContext
  metadata : ReplyMetadata
deriving DecidableEq

/-- Outcomes of the external calls made during one generateReplySuggestions
invocation. -/
structure RagEnv where
  intentResult : Option Str
  knowledgeSearch : Except Unit (List KnowledgeResult)
  templateSearch : Except Unit (List TemplateResult)
  aiCompletion : Except Unit Str
  meetingLink : Option Str
  now : ℕ

/-- The default intent returned when the classifier call fails or returns
no content. -/
def generalInquiry : Str := ("General inquiry").data

/-- analyzeEmailIntent: single LLM call; the response content is trimmed
and an empty or missing content falls back to the default, as does any
error (caught internally, never propagated). -/
def analyzeEmailIntent (_email : EmailContext) (env : RagEnv) : Str :=
  match env.intentResult with
  | some s => if jsTrim s = [] then generalInquiry else jsTrim s
  | none => generalInquiry

def kwInterview : Str := ("interview").data
def kwMeeting : Str := ("meeting").data
def kwDemo : Str := ("demo").data
def kwSupport : Str := ("support").data
def kwHelp : Str := ("help").data
def kwCollaboration : Str := ("collaboration").data
def kwProject : Str := ("project").data
def catJobInterview : Str := ("job_interview").data
def catMeeting : Str := ("meeting").data
def catSalesDemo : Str := ("sales_demo").data
def catTechnicalSupport : Str := ("technical_support").data
def catCollaboration : Str := ("collaboration").data
def catGeneral : Str := ("general").data

/-- categorizeEmail: cascading case-insensitive substring checks over the
lowercased subject and body. -/
def categorizeEmail (email : EmailContext) (_intent : Str) : Str :=
  let subject := jsToLower email.subject
  let body := jsToLower email.body
  if jsIncludes subject kwInterview || jsIncludes body kwInterview then catJobInterview
  else if jsIncludes subject kwMeeting || jsIncludes body kwMeeting then catMeeting
  else if jsIncludes subject kwDemo || jsIncludes body kwDemo then catSalesDemo
  else if jsIncludes subject kwSupport || jsIncludes body kwHelp then catTechnicalSupport
  else if jsIncludes subject kwCollaboration || jsIncludes body kwProject then catCollaboration
  else catGeneral

def kwThank : Str := ("thank").data
def kwThankYou : Str := ("thank you").data
def kwConfirm : Str := ("confirm").data

/-- generateQuickResponse: canned one-line replies for two patterns; the
thanks pattern (subject contains thank, or body contains thank you) is
checked first, then the confirmation pattern (subject or body contains
confirm); otherwise null. -/
def generateQuickResponse (email : EmailContext) (now : ℕ) (_intent : Str) :
    Option SuggestedReply :=
  if jsIncludes (jsToLower email.subject) kwThank
      || jsIncludes (jsToLower email.body) kwThankYou then
    some
      { id := ("quick_").data ++ (toString now).data
        content := ("You\x27re welcome! Feel free to reach out if you have any other questions.").data
        confidence := mkRat 9 10
        context :=
          { relevantKnowledge := []
            matchedTemplate := none
            reasoning := ("Quick response for thank you message").data }
        metadata :=
          { category := ("acknowledgment").data
            tone := Tone.friendly
            action_required := false
            estimated_response_time := ("immediate").data } }
  else if jsIncludes (jsToLower email.subject) kwConfirm
      || jsIncludes (jsToLower email.body) kwConfirm then
    some
      { id := ("quick_").data ++ (toString now).data
        content := ("Confirmed! I\x27ll make a note of this. Thank you for letting me know.").data
        confidence := mkRat 8 10
        context :=
          { relevantKnowledge := []
            matchedTemplate := none
            reasoning := ("Quick response for confirmation request").data }
        metadata :=
          { category := ("confirmation").data
            tone := Tone.professional
            action_required := false
            estimated_response_time := ("immediate").data } }
  else none

def defaultMeetingLink : Str := ("https://cal.com/example").data
def productName : Str := ("OneBox-AI").data
def senderFallback : Str := ("there").data

/-- The sender_name variable: from.split at the at-sign, first component,
with the fallback when it is empty. -/
def senderName (fromAddr : Str) : Str :=
  if fromAddr.takeWhile (fun c => c ≠ '@') = [] then senderFallback
  else fromAddr.takeWhile (fun c => c ≠ '@')

/-- The meeting_link variable: process.env.MEETING_LINK with the default
when unset or empty (JavaScript falsiness). -/
def meetingLinkValue (env : RagEnv) : Str :=
  match env.meetingLink with
  | some s => if s = [] then defaultMeetingLink else s
  | none => defaultMeetingLink

/-- The brace-delimited placeholder for a template variable. -/
def varPattern (key : Str) : Str := ("\x7b\x7b").data ++ key ++ ("\x7d\x7d").data

/-- The variable-substitution loop of generateTemplateBasedReply, applied
in the object-literal order: meeting_link, product_name, sender_name. -/
def customizeTemplate (email : EmailContext) (env : RagEnv) (t : Str) : Str :=
  jsReplaceAll (varPattern (("sender_name").data)) (senderName email.fromAddr)
    (jsReplaceAll (varPattern (("product_name").data)) productName
      (jsReplaceAll (varPattern (("meeting_link").data)) (meetingLinkValue env) t))

/-- generateTemplateBasedReply: customize the matched template and wrap it
as a SuggestedReply whose confidence is the match similarity. -/
def generateTemplateBasedReply (email : EmailContext) (template : TemplateResult)
    (knowledgeResults : List KnowledgeResult) (env : RagEnv) : SuggestedReply :=
  { id := ("template_").data ++ (toString env.now).data
    content := customizeTemplate email env template.template
    confidence := template.similarity
    context :=
      { relevantKnowledge := knowledgeResults.take 2
        matchedTemplate := some template
        reasoning := ("Matched template for ").data ++ template.category
          ++ (" scenario with ").data
          ++ (toString (jsRound (template.similarity * 100))).data
          ++ ("% confidence").data }
    metadata :=
      { category := template.category
        tone := Tone.professional
        action_required := jsIncludes (customizeTemplate email env template.template) (("http").data)
        estimated_response_time := ("immediate").data } }

/-- The default content when the reply-generation LLM returns empty or
missing content. -/
def defaultAiContent : Str :=
  ("Thank you for your email. I\x27ll review your message and respond accordingly.").data

/-- The content of the AI-contextual reply: the trimmed completion payload,
or the default when it is empty or missing (JavaScript falsiness). -/
def aiContent (payload : Str) : Str :=
  if jsTrim payload = [] then defaultAiContent else jsTrim payload

/-- generateAIContextualReply given the successful completion payload (an
errored completion is rethrown by the source and handled by the caller). -/
def generateAIContextualReply (email : EmailContext)
    (knowledgeResults : List KnowledgeResult) (templateResults : List TemplateResult)
    (intent : Str) (payload : Str) (env : RagEnv) : SuggestedReply :=
  { id := ("ai_").data ++ (toString env.now).data
    content := aiContent payload
    confidence := mkRat 8 10
    context :=
      { relevantKnowledge := knowledgeResults
        matchedTemplate := templateResults.head?
        reasoning := ("AI-generated response using retrieved context and templates").data }
    metadata :=
      { category := categorizeEmail email intent
        tone := Tone.professional
        action_required := jsIncludes (aiContent payload) (("http").data)
          || jsIncludes (aiContent payload) (("schedule").data)
        estimated_response_time := ("immediate").data } }

/-- The fixed fallback reply returned when any step of the pipeline throws. -/
def fallbackReply : SuggestedReply :=
  { id := ("fallback").data
    content := ("Thank you for your email. I will review your message and get back to you soon.").data
    confidence := mkRat 5 10
    context :=
      { relevantKnowledge := []
        matchedTemplate := none
        reasoning := ("Fallback response due to processing error").data }
    metadata :=
      { category := ("general").data
        tone := Tone.professional
        action_required := true
        estimated_response_time := ("24 hours").data } }

/-- The template strategy step: a singleton when a template matched with
similarity above 0.7, else nothing. -/
def templateSuggestions (email : EmailContext) (knowledgeResults : List KnowledgeResult)
    (templateResults : List TemplateResult) (env : RagEnv) : List SuggestedReply :=
  match templateResults with
  | [] => []
  | t :: _ =>
    if mkRat 7 10 < t.similarity then [generateTemplateBasedReply email t knowledgeResults env]
    else []

/-- generateReplySuggestions: classify intent, run the two retrievals, and
concatenate the three strategies; any error from retrieval or from the
AI completion is caught and replaced by the single fallback reply. -/
def generateReplySuggestions (email : EmailContext) (env : RagEnv) : List SuggestedReply :=
  let intent := analyzeEmailIntent email env
  match env.knowledgeSearch, env.templateSearch, env.aiCompletion with
  | Except.ok knowledgeResults, Except.ok templateResults, Except.ok payload =>
    templateSuggestions email knowledgeResults templateResults env
      ++ (generateAIContextualReply email knowledgeResults templateResults intent payload env
        :: (generateQuickResponse email env.now intent).toList)
  | _, _, _ => [fallbackReply]

/-! ## Knowledge store state and seeding (vector.service.ts)

The VectorService state relevant to seeding is its connectivity flag and
the contents of the two ChromaDB collections, modelled by their item
counts (which is exactly what getStats reports).  addKnowledgeItem and
addReplyTemplate are no-ops when disconnected (they only mint an id). -/

/-- Seeding-relevant state of the VectorService. -/
structure VectorStore where
  isConnected : Bool
  knowledgeItems : ℕ
  replyTemplates : ℕ
deriving DecidableEq

/-- The record returned by getStats. -/
structure VectorStats where
  knowledgeItems : ℕ
  replyTemplates : ℕ
  status : Str
deriving DecidableEq

/-- getStats: zeros with status disconnected when not connected, else the
two collection counts with status active. -/
def getStats (s : VectorStore) : VectorStats :=
  if s.isConnected then
    { knowledgeItems := s.knowledgeItems
      replyTemplates := s.replyTemplates
      status := ("active").data }
  else
    { knowledgeItems := 0
      replyTemplates := 0
      status := ("disconnected").data }

/-- A knowledge seed entry (content and category; the tags/priority
metadata plays no role in the counts). -/
structure KnowledgeSeed where
  content : Str
  category : Str

/-- A reply-template seed entry. -/
structure TemplateSeed where
  scenario : Str
  template : Str
  vars : List Str
  category : Str

/-- The three productInfo seed items of seedKnowledgeBase. -/
def productInfo : List KnowledgeSeed :=
  [ { content := ("Our AI-powered email management platform OneBox-AI helps businesses organize, classify, and respond to emails intelligently using machine learning.").data
      category := ("product_overview").data }
  , { content := ("Key features: Multi-account IMAP sync, AI email classification, Elasticsearch integration, webhook notifications, modern React frontend, dark/light themes.").data
      category := ("product_features").data }
  , { content := ("Technical stack: Node.js, Express, TypeScript, React 18, Elasticsearch, Hugging Face AI, ChromaDB for vector search.").data
      category := ("technical_specs").data } ]

/-- The four outreachTemplates seed items of seedKnowledgeBase. -/
def outreachTemplates : List TemplateSeed :=
  [ { scenario := ("Job application follow-up when interviewer shows interest").data
      template := ("Thank you for your interest in my application! I\x27m excited about the opportunity to discuss how I can contribute to your team. You can schedule a convenient time for our interview here: https://cal.com/example").data
      vars := [("meeting_link").data]
      category := ("job_interview").data }
  , { scenario := ("Meeting request response for project collaboration").data
      template := ("I\x27d be happy to discuss the collaboration opportunity! Please find my available slots for a meeting: https://cal.com/example").data
      vars := [("meeting_link").data, ("project_name").data]
      category := ("collaboration").data }
  , { scenario := ("Product demo request from potential client").data
      template := ("Thank you for your interest in OneBox-AI! I\x27d be delighted to show you how our AI-powered email management platform can streamline your workflow. You can book a demo session here: https://cal.com/example").data
      vars := [("meeting_link").data, ("product_name").data]
      category := ("sales_demo").data }
  , { scenario := ("Technical support inquiry response").data
      template := ("I\x27d be happy to help you with your technical question about OneBox-AI. Let\x27s schedule a quick call to discuss your specific needs: https://cal.com/example").data
      vars := [("meeting_link").data, ("issue_type").data]
      category := ("technical_support").data } ]

/-- addKnowledgeItem: skipped when disconnected, else inserts one item. -/
def addKnowledgeItem (s : VectorStore) (_item : KnowledgeSeed) : VectorStore :=
  if s.isConnected then { s with knowledgeItems := s.knowledgeItems + 1 } else s

/-- addReplyTemplate: skipped when disconnected, else inserts one template. -/
def addReplyTemplate (s : VectorStore) (_t : TemplateSeed) : VectorStore :=
  if s.isConnected then { s with replyTemplates := s.replyTemplates + 1 } else s

/-- seedKnowledgeBase: when connected, adds every productInfo item and
every outreachTemplates template, unconditionally; when disconnected it
is a no-op. -/
def seedKnowledgeBase (s : VectorStore) : VectorStore :=
  if s.isConnected then
    outreachTemplates.foldl addReplyTemplate (productInfo.foldl addKnowledgeItem s)
  else s

/-- initializeStore (the initialize method): connect (or mark disconnected if the collections cannot be
created), then seed only if getStats reports an empty knowledge base; if
the getStats call itself fails, seed unconditionally. -/
def initializeStore (collectionsOk statsFails : Bool) (s : VectorStore) : VectorStore :=
  if collectionsOk then
    let s1 := { s with isConnected := true }
    if statsFails then seedKnowledgeBase s1
    else if (getStats s1).knowledgeItems = 0 then seedKnowledgeBase s1
    else s1
  else { s with isConnected := false }

lemma seedKnowledgeBase_connected (c : Bool) (k r : ℕ) (h : c = true) :
    seedKnowledgeBase ⟨c, k, r⟩ = ⟨c, k + 3, r + 4⟩ := by
  subst h
  simp [seedKnowledgeBase, productInfo, outreachTemplates, addKnowledgeItem, addReplyTemplate]

/-- Claim C9 counterexample: starting from a freshly connected empty store,
calling seedKnowledgeBase twice leaves stats().knowledgeItems at 6 after
the second call versus 3 after the first — the second seeding duplicates
every item, since the seed-only-if-empty guard lives in initialize, not
in seedKnowledgeBase. -/
theorem C9_counterexample :
    (getStats (seedKnowledgeBase (seedKnowledgeBase ⟨true, 0, 0⟩))).knowledgeItems ≠
      (getStats (seedKnowledgeBase ⟨true, 0, 0⟩)).knowledgeItems := by decide

/-- Claim C9 (amended): the seeding guard lives at initialization: calling
initialize twice in sequence (collections available, stats call
succeeding) leaves stats().knowledgeItems unchanged after the second
call, because initialize seeds only when the count is zero; calling
seedKnowledgeBase itself twice while connected adds the full seed
catalog both times. -/
theorem C9_seeding_guard_at_init (s : VectorStore) :
    (getStats (initializeStore true false (initializeStore true false s))).knowledgeItems =
      (getStats (initializeStore true false s)).knowledgeItems := by
  cases s with
  | mk c k r =>
    by_cases hk : k = 0
    · subst hk
      have h1 : initializeStore true false ⟨c, 0, r⟩ = ⟨true, 0 + 3, r + 4⟩ := by
        simp [initializeStore, getStats, seedKnowledgeBase_connected true 0 r rfl]
      have h2 : initializeStore true false ⟨true, 0 + 3, r + 4⟩ = ⟨true, 0 + 3, r + 4⟩ := by
        simp [initializeStore, getStats]
      rw [h1, h2]
    · have h1 : initializeStore true false ⟨c, k, r⟩ = ⟨true, k, r⟩ := by
        simp [initializeStore, getStats, hk]
      have h2 : initializeStore true false ⟨true, k, r⟩ = ⟨true, k, r⟩ := by
        simp [initializeStore, getStats, hk]
      rw [h1, h2]

/-! ## Claim C1: totality and exact fallback -/

/-- Claim C1: for every EmailContext (including one with all-empty strings)
and every environment of external-call outcomes, generateReplySuggestions
returns a non-empty list; and whenever retrieval or synthesis fails
(classification failures are swallowed internally and never reach the
catch), it returns exactly one reply: the fixed fallback with id fallback,
confidence 0.5, category general, tone professional, action_required
true, estimated_response_time 24 hours, and the fallback reasoning
string. -/
theorem C1_totality_exact_fallback (email : EmailContext) (env : RagEnv) :
    generateReplySuggestions email env ≠ [] ∧
    ((env.knowledgeSearch.isOk = false ∨ env.templateSearch.isOk = false ∨
        env.aiCompletion.isOk = false) →
      generateReplySuggestions email env = [fallbackReply]) ∧
    fallbackReply.id = ("fallback").data ∧
    fallbackReply.confidence = mkRat 5 10 ∧
    fallbackReply.metadata.category = ("general").data ∧
    fallbackReply.metadata.tone = Tone.professional ∧
    fallbackReply.metadata.action_required = true ∧
    fallbackReply.metadata.estimated_response_time = ("24 hours").data ∧
    fallbackReply.context.reasoning = ("Fallback response due to processing error").data := by
  refine ⟨?_, ?_, rfl, rfl, rfl, rfl, rfl, rfl, rfl⟩
  · unfold generateReplySuggestions
    cases env.knowledgeSearch <;> cases env.templateSearch <;> cases env.aiCompletion <;> simp
  · intro h
    unfold generateReplySuggestions
    cases hk : env.knowledgeSearch <;> cases ht : env.templateSearch <;>
      cases ha : env.aiCompletion <;> simp_all [Except.isOk, Except.toBool]

/-- Claim C1 witness: the theorem applied to a concrete email and an
environment in which retrieval and synthesis all fail. -/
theorem C1_witness :
    generateReplySuggestions
      { subject := [], body := [], fromAddr := [], toAddr := [], date := [] }
      { intentResult := none
        knowledgeSearch := Except.error ()
        templateSearch := Except.error ()
        aiCompletion := Except.error ()
        meetingLink := none
        now := 0 } = [fallbackReply] :=
  (C1_totality_exact_fallback _ _).2.1 (Or.inl rfl)

/-! ## Claim C2: confidence bounds and non-empty content -/

lemma jsReplaceFuel_ne_nil (fuel : ℕ) (pat repl s : List Char)
    (hs : s ≠ []) (hr : repl ≠ []) : jsReplaceFuel (fuel + 1) pat repl s ≠ [] := by
  cases s with
  | nil => exact absurd rfl hs
  | cons c rest =>
    unfold jsReplaceFuel
    split
    · exact fun hcon => hr (List.append_eq_nil.mp hcon).1
    · simp

lemma jsReplaceAll_ne_nil (pat repl s : List Char) (hs : s ≠ []) (hr : repl ≠ []) :
    jsReplaceAll pat repl s ≠ [] :=
  jsReplaceFuel_ne_nil s.length pat repl s hs hr

lemma meetingLinkValue_ne_nil (env : RagEnv) : meetingLinkValue env ≠ [] := by
  unfold meetingLinkValue
  cases env.meetingLink with
  | none => decide
  | some s =>
    show (if s = [] then defaultMeetingLink else s) ≠ []
    by_cases h : s = []
    · rw [if_pos h]; decide
    · rw [if_neg h]; exact h

lemma senderName_ne_nil (a : Str) : senderName a ≠ [] := by
  unfold senderName
  by_cases h : a.takeWhile (fun c => c ≠ '@') = []
  · rw [if_pos h]; decide
  · rw [if_neg h]; exact h

lemma customizeTemplate_ne_nil (email : EmailContext) (env : RagEnv) (t : Str)
    (h : t ≠ []) : customizeTemplate email env t ≠ [] :=
  jsReplaceAll_ne_nil _ _ _
    (jsReplaceAll_ne_nil _ _ _
      (jsReplaceAll_ne_nil _ _ _ h (meetingLinkValue_ne_nil env)) (by decide))
    (senderName_ne_nil email.fromAddr)

lemma aiContent_ne_nil (payload : Str) : aiContent payload ≠ [] := by
  unfold aiContent
  by_cases h : jsTrim payload = []
  · rw [if_pos h]; decide
  · rw [if_neg h]; exact h

lemma quickResponse_fields (email : EmailContext) (now : ℕ) (intent : Str)
    (r : SuggestedReply) (h : generateQuickResponse email now intent = some r) :
    r.content ≠ [] ∧ 0 ≤ r.confidence ∧ r.confidence ≤ 1 := by
  unfold generateQuickResponse at h
  split_ifs at h with h1 h2
  · obtain rfl := Option.some.inj h
    refine ⟨by simp, ?_, ?_⟩
    · show (0 : ℚ) ≤ mkRat 9 10
      decide
    · show (mkRat 9 10 : ℚ) ≤ 1
      decide
  · obtain rfl := Option.some.inj h
    refine ⟨by simp, ?_, ?_⟩
    · show (0 : ℚ) ≤ mkRat 8 10
      decide
    · show (mkRat 8 10 : ℚ) ≤ 1
      decide

/-- Membership fact for the successful path: every reply in the
concatenated strategy output has non-empty content and a confidence in
[0, 1], provided every retrieved template has a similarity in [0, 1] and
a non-empty template text. -/
lemma success_reply_fields (email : EmailContext) (env : RagEnv)
    (kr : List KnowledgeResult) (trs : List TemplateResult) (payload : Str)
    (htrs : ∀ t ∈ trs, 0 ≤ t.similarity ∧ t.similarity ≤ 1 ∧ t.template ≠ [])
    (r : SuggestedReply)
    (hr : r ∈ templateSuggestions email kr trs env
      ++ (generateAIContextualReply email kr trs (analyzeEmailIntent email env) payload env
        :: (generateQuickResponse email env.now (analyzeEmailIntent email env)).toList)) :
    r.content ≠ [] ∧ 0 ≤ r.confidence ∧ r.confidence ≤ 1 := by
  rcases List.mem_append.mp hr with h1 | h2
  · unfold templateSuggestions at h1
    cases trs with
    | nil => simp at h1
    | cons t rest =>
      rcases htrs t (List.mem_cons_self t rest) with ⟨hs0, hs1, htne⟩
      change r ∈ (if mkRat 7 10 < t.similarity
        then [generateTemplateBasedReply email t kr env] else []) at h1
      by_cases hgate : mkRat 7 10 < t.similarity
      · rw [if_pos hgate, List.mem_singleton] at h1
        subst h1
        exact ⟨customizeTemplate_ne_nil email env t.template htne, hs0, hs1⟩
      · rw [if_neg hgate] at h1
        simp at h1
  · rcases List.mem_cons.mp h2 with h3 | h4
    · subst h3
      refine ⟨aiContent_ne_nil payload, ?_, ?_⟩
      · show (0 : ℚ) ≤ mkRat 8 10
        decide
      · show (mkRat 8 10 : ℚ) ≤ 1
        decide
    · rcases Option.mem_toList.mp h4 with h5
      exact quickResponse_fields email env.now (analyzeEmailIntent email env) r h5

/-- The concrete environment for the C2 counterexample: the template store
returns a match with empty template text and similarity 0.8, and the AI
completion succeeds. -/
def envC2 : RagEnv :=
  { intentResult := none
    knowledgeSearch := Except.ok []
    templateSearch := Except.ok
      [{ scenario := [], template := [], vars := [], category := [], similarity := mkRat 8 10 }]
    aiCompletion := Except.ok (("ok").data)
    meetingLink := none
    now := 0 }

/-- A concrete email with all fields empty. -/
def emailC2 : EmailContext :=
  { subject := [], body := [], fromAddr := [], toAddr := [], date := [] }

/-- Claim C2 counterexample: when the store returns a template whose text
is the empty string with similarity 0.8 (above the 0.7 gate), the first
returned suggestion has empty content, refuting the unconditional
non-empty-content claim. -/
theorem C2_counterexample :
    ((generateReplySuggestions emailC2 envC2).map SuggestedReply.content).head? = some [] := by
  decide

/-- Claim C2 (amended): every SuggestedReply returned by
generateReplySuggestions on any code path (template-based, AI-contextual,
quick-response, or error fallback) has a non-empty content string and a
confidence in [0, 1], provided each retrieved template result has a
similarity in [0, 1] (as the claim already assumes for the template path)
and a non-empty template text (true of every seeded and fallback
template, but not enforced by the code for arbitrary store contents). -/
theorem C2_confidence_content_amended (email : EmailContext) (env : RagEnv)
    (htpl : ∀ trs, env.templateSearch = Except.ok trs →
      ∀ t ∈ trs, 0 ≤ t.similarity ∧ t.similarity ≤ 1 ∧ t.template ≠ []) :
    ∀ r ∈ generateReplySuggestions email env,
      r.content ≠ [] ∧ 0 ≤ r.confidence ∧ r.confidence ≤ 1 := by
  intro r hr
  cases hks : env.knowledgeSearch <;> cases hts : env.templateSearch <;>
    cases has : env.aiCompletion <;>
      simp only [generateReplySuggestions, hks, hts, has] at hr
  all_goals first
    | (rw [List.mem_singleton] at hr
       subst hr
       refine ⟨by simp [fallbackReply], ?_, ?_⟩
       · show (0 : ℚ) ≤ mkRat 5 10
         decide
       · show (mkRat 5 10 : ℚ) ≤ 1
         decide)
    | exact success_reply_fields email env _ _ _ (htpl _ hts) r hr

/-- Claim C2 witness: the amended theorem applied to a concrete email and a
failing environment, instantiated at the fallback reply it returns. -/
theorem C2_witness :
    fallbackReply.content ≠ [] ∧ 0 ≤ fallbackReply.confidence ∧ fallbackReply.confidence ≤ 1 :=
  C2_confidence_content_amended emailC2
    { intentResult := none
      knowledgeSearch := Except.error ()
      templateSearch := Except.error ()
      aiCompletion := Except.error ()
      meetingLink := none
      now := 0 }
    (fun _ htrs => nomatch htrs) fallbackReply (by decide)

/-! ## Claim C6: template gating and position -/

/-- Claim C6: on the successful path, the template-based suggestion is
included iff the template result list is non-empty and its top match has
similarity strictly above 0.7; when included it is first in the returned
order, immediately before the AI-contextual suggestion. -/
theorem C6_template_gating_and_position (email : EmailContext) (env : RagEnv)
    (kr : List KnowledgeResult) (payload : Str)
    (hk : env.knowledgeSearch = Except.ok kr) (ha : env.aiCompletion = Except.ok payload) :
    (∀ t rest, env.templateSearch = Except.ok (t :: rest) → mkRat 7 10 < t.similarity →
      generateReplySuggestions email env =
        generateTemplateBasedReply email t kr env
          :: generateAIContextualReply email kr (t :: rest) (analyzeEmailIntent email env)
            payload env
          :: (generateQuickResponse email env.now (analyzeEmailIntent email env)).toList) ∧
    (∀ t rest, env.templateSearch = Except.ok (t :: rest) → t.similarity ≤ mkRat 7 10 →
      generateReplySuggestions email env =
        generateAIContextualReply email kr (t :: rest) (analyzeEmailIntent email env) payload env
          :: (generateQuickResponse email env.now (analyzeEmailIntent email env)).toList) ∧
    (env.templateSearch = Except.ok [] →
      generateReplySuggestions email env =
        generateAIContextualReply email kr [] (analyzeEmailIntent email env) payload env
          :: (generateQuickResponse email env.now (analyzeEmailIntent email env)).toList) := by
  refine ⟨fun t rest ht hgt => ?_, fun t rest ht hle => ?_, fun ht => ?_⟩
  · simp only [generateReplySuggestions, hk, ht, ha, templateSuggestions]
    rw [if_pos hgt]
    rfl
  · simp only [generateReplySuggestions, hk, ht, ha, templateSuggestions]
    rw [if_neg (not_lt.mpr hle)]
    rfl
  · simp only [generateReplySuggestions, hk, ht, ha, templateSuggestions]
    rfl

/-- The concrete template match with similarity 0.71 for the C6 witness. -/
def tC6 : TemplateResult :=
  { scenario := []
    template := ("Hi").data
    vars := []
    category := ("general").data
    similarity := mkRat 71 100 }

/-- The concrete environment for the C6 witness. -/
def envC6 : RagEnv :=
  { intentResult := none
    knowledgeSearch := Except.ok []
    templateSearch := Except.ok [tC6]
    aiCompletion := Except.ok []
    meetingLink := none
    now := 0 }

/-- A concrete email with all fields empty, for the C6 witness. -/
def emailC6 : EmailContext :=
  { subject := [], body := [], fromAddr := [], toAddr := [], date := [] }

/-- Claim C6 witness: with a concrete 0.71-similarity template match the
template suggestion appears first, before the AI-contextual one. -/
theorem C6_witness :
    generateReplySuggestions emailC6 envC6 =
      generateTemplateBasedReply emailC6 tC6 [] envC6
        :: generateAIContextualReply emailC6 [] [tC6] (analyzeEmailIntent emailC6 envC6)
          [] envC6
        :: (generateQuickResponse emailC6 envC6.now (analyzeEmailIntent emailC6 envC6)).toList :=
  ((C6_template_gating_and_position emailC6 envC6 [] [] rfl rfl).1) tC6 [] rfl (by decide)

/-! ## Claim C7: quick-response patterns -/

/-- The email for the C7 counterexample: its body contains the keyword
thank (in thanks) but not the phrase thank you, and no confirm. -/
def emailC7 : EmailContext :=
  { subject := [], body := ("many thanks").data, fromAddr := [], toAddr := [], date := [] }

/-- Claim C7 counterexample: an email whose body matches the claimed
thanks pattern (keyword thank) receives no quick response at all — the
code checks the body for the phrase thank you, not the keyword thank. -/
theorem C7_counterexample :
    jsIncludes (jsToLower emailC7.body) kwThank = true ∧
    generateQuickResponse emailC7 0 generalInquiry = none := by decide

/-- Claim C7 (amended): exactly one quick response is produced when the
thanks pattern (subject contains thank, or body contains the phrase thank
you) or the confirmation pattern (subject or body contains confirm)
matches; thanks wins when both match, with confidence 0.9 and category
acknowledgment, confirmation alone gives confidence 0.8 and category
confirmation, action_required is false in both cases, and no quick
response is produced when neither pattern matches. -/
theorem C7_quick_response_amended (email : EmailContext) (now : ℕ) (intent : Str) :
    ((jsIncludes (jsToLower email.subject) kwThank
        || jsIncludes (jsToLower email.body) kwThankYou) = true →
      ∃ r, generateQuickResponse email now intent = some r ∧
        r.confidence = mkRat 9 10 ∧ r.metadata.action_required = false ∧
        r.metadata.category = ("acknowledgment").data) ∧
    ((jsIncludes (jsToLower email.subject) kwThank
        || jsIncludes (jsToLower email.body) kwThankYou) = false →
      (jsIncludes (jsToLower email.subject) kwConfirm
        || jsIncludes (jsToLower email.body) kwConfirm) = true →
      ∃ r, generateQuickResponse email now intent = some r ∧
        r.confidence = mkRat 8 10 ∧ r.metadata.action_required = false ∧
        r.metadata.category = ("confirmation").data) ∧
    ((jsIncludes (jsToLower email.subject) kwThank
        || jsIncludes (jsToLower email.body) kwThankYou) = false →
      (jsIncludes (jsToLower email.subject) kwConfirm
        || jsIncludes (jsToLower email.body) kwConfirm) = false →
      generateQuickResponse email now intent = none) := by
  refine ⟨fun h1 => ?_, fun h1 h2 => ?_, fun h1 h2 => ?_⟩
  · unfold generateQuickResponse
    rw [if_pos (by rw [h1])]
    exact ⟨_, rfl, rfl, rfl, rfl⟩
  · unfold generateQuickResponse
    rw [if_neg (by rw [h1]; exact Bool.false_ne_true), if_pos (by rw [h2])]
    exact ⟨_, rfl, rfl, rfl, rfl⟩
  · unfold generateQuickResponse
    rw [if_neg (by rw [h1]; exact Bool.false_ne_true),
      if_neg (by rw [h2]; exact Bool.false_ne_true)]

/-- The email for the C7 witness: the subject contains Thank. -/
def emailC7w : EmailContext :=
  { subject := ("Thank you").data, body := [], fromAddr := [], toAddr := [], date := [] }

/-- Claim C7 witness: the amended theorem applied to a concrete thanks
email. -/
theorem C7_witness :
    ∃ r, generateQuickResponse emailC7w 0 generalInquiry = some r ∧
      r.confidence = mkRat 9 10 ∧ r.metadata.action_required = false ∧
      r.metadata.category = ("acknowledgment").data :=
  (C7_quick_response_amended emailC7w 0 generalInquiry).1 (by decide)

/-! ## Claim C8: category keyword rule -/

/-- One row of the category rule table: the keyword checked against the
subject, the keyword checked against the body, and the resulting
category. -/
structure CategoryRule where
  subjectKw : Str
  bodyKw : Str
  category : Str

/-- The ordered rule table of categorizeEmail in first-match form.  The
fourth and fifth rows are asymmetric: support is checked only against the
subject and help only against the body, and likewise collaboration
(subject) / project (body). -/
def categoryRules : List CategoryRule :=
  [ { subjectKw := kwInterview, bodyKw := kwInterview, category := catJobInterview }
  , { subjectKw := kwMeeting, bodyKw := kwMeeting, category := catMeeting }
  , { subjectKw := kwDemo, bodyKw := kwDemo, category := catSalesDemo }
  , { subjectKw := kwSupport, bodyKw := kwHelp, category := catTechnicalSupport }
  , { subjectKw := kwCollaboration, bodyKw := kwProject, category := catCollaboration } ]

/-- First-match evaluation of an ordered rule table over the lowercased
subject and body, defaulting to general. -/
def firstMatchCategory : List CategoryRule → Str → Str → Str
  | [], _, _ => catGeneral
  | rule :: rs, subject, body =>
    if jsIncludes subject rule.subjectKw || jsIncludes body rule.bodyKw then rule.category
    else firstMatchCategory rs subject body

/-- The email for the C8 counterexample: body contains support. -/
def emailC8 : EmailContext :=
  { subject := [], body := ("support").data, fromAddr := [], toAddr := [], date := [] }

/-- Claim C8 counterexample: the keyword support occurring in the body
does not trigger technical_support — the code checks support only in the
subject (and help only in the body) — so this email is categorized
general, refuting the keyword-in-either-field claim. -/
theorem C8_counterexample :
    jsIncludes (jsToLower emailC8.body) kwSupport = true ∧
    categorizeEmail emailC8 generalInquiry = catGeneral := by decide

/-- Claim C8 (amended): categorizeEmail is exactly first-match evaluation
of the fixed ordered case-insensitive rule table (interview, meeting and
demo checked in both fields; support only in the subject with help only
in the body; collaboration only in the subject with project only in the
body), defaulting to general. -/
theorem C8_category_first_match_amended (email : EmailContext) (intent : Str) :
    categorizeEmail email intent =
      firstMatchCategory categoryRules (jsToLower email.subject) (jsToLower email.body) := rfl
